import Mathlib

/-!
Shallow embedding of the OpenGOAL launcher version-management module:
the `invoke_and_log` RPC wrapper and its seven typed call sites.

The backend call (`invoke` from the host environment) is modelled as an
explicit function parameter from a method name and optional argument
mapping to an outcome: either a resolved JavaScript value or a rejection
value.  JavaScript runtime values are modelled by the inductive `JSVal`;
property access on `null`/`undefined` throws a `TypeError`, which is
modelled by `Except`.  The two external sinks (toast notifications, the
diagnostic log with its plain-error and exception channels) are modelled
as an explicit `Effects` record returned alongside the result.
-/

set_option autoImplicit false

/-- A JavaScript runtime value, as far as this module can observe one:
`null`, `undefined`, booleans, numbers, strings, arrays and plain objects
(an object is a list of own properties). -/
inductive JSVal where
  | vNull : JSVal
  | vUndefined : JSVal
  | vBool : Bool → JSVal
  | vNum : Int → JSVal
  | vStr : String → JSVal
  | vArr : List JSVal → JSVal
  | vObj : List (String × JSVal) → JSVal

/-- JavaScript truthiness of a value (the coercion applied by `if` and by
the `&&` operator). -/
def JSVal.truthy : JSVal → Bool
  | .vNull => false
  | .vUndefined => false
  | .vBool b => b
  | .vNum n => n != 0
  | .vStr s => s != ""
  | .vArr _ => true
  | .vObj _ => true

/-- `typeof v === "string"`. -/
def JSVal.isString : JSVal → Bool
  | .vStr _ => true
  | _ => false

/-- `v === false` (strict equality against the boolean `false`). -/
def JSVal.isFalse : JSVal → Bool
  | .vBool false => true
  | _ => false

/-- The `TypeError` object thrown by a property read on `null` or
`undefined`. -/
def typeErrorVal (msg : String) : JSVal :=
  JSVal.vObj [("name", JSVal.vStr "TypeError"), ("message", JSVal.vStr msg)]

/-- Property access `v.p`: throws a `TypeError` on `null`/`undefined`,
looks up an own property on objects (missing gives `undefined`), and gives
`undefined` on the remaining primitives and on arrays (none of which have
own `name`/`message`-style properties). -/
def JSVal.getProp : JSVal → String → Except JSVal JSVal
  | .vNull, p =>
      Except.error (typeErrorVal ("Cannot read properties of null (reading " ++ p ++ ")"))
  | .vUndefined, p =>
      Except.error (typeErrorVal ("Cannot read properties of undefined (reading " ++ p ++ ")"))
  | .vObj fields, p =>
      Except.ok (match fields.lookup p with
        | some v => v
        | none => JSVal.vUndefined)
  | _, _ => Except.ok JSVal.vUndefined

mutual

/-- JavaScript string coercion of a value, as performed by template-literal
interpolation. -/
def JSVal.display : JSVal → String
  | .vNull => "null"
  | .vUndefined => "undefined"
  | .vBool true => "true"
  | .vBool false => "false"
  | .vNum n => toString n
  | .vStr s => s
  | .vArr xs => displayElems xs
  | .vObj _ => "[object Object]"

/-- Array-to-string coercion: elements joined by commas. -/
def displayElems : List JSVal → String
  | [] => ""
  | [x] => JSVal.display x
  | x :: y :: rest => JSVal.display x ++ "," ++ displayElems (y :: rest)

end

/-- The observable side effects of one call through the wrapper:
toasts shown (message value with severity), lines written to the
plain-error log channel, and entries (label with opaque value) written to
the exception log channel. -/
structure Effects where
  toasts : List (JSVal × String)
  errorLogs : List String
  exceptionLogs : List (String × JSVal)

/-- No side effects. -/
def Effects.empty : Effects := ⟨[], [], []⟩

/-- The optional argument mapping passed to the backend (`InvokeArgs`). -/
abbrev InvokeArgs := List (String × JSVal)

/-- The host `invoke` primitive, resolving with a value of type `T` or
rejecting with an arbitrary JavaScript value. -/
abbrev InvokeFn (T : Type) := String → Option InvokeArgs → Except JSVal T

/-- A backend whose resolved values are arbitrary JavaScript values, the
type at which every call site of this module instantiates the wrapper. -/
abbrev Backend := InvokeFn JSVal

/-- The wrapper: performs the remote call; on success returns the value with
no effects; on rejection with `e` evaluates `e.name && e.message` (a
property read that itself throws when `e` is `null`/`undefined`), showing
a toast and writing an error-log line for the structured shape, likewise
for the plain-string shape, and writing a single exception-log entry
otherwise, then returns `handle e`. -/
def invoke_and_log {T : Type} (invoke : InvokeFn T) (method : String)
    (handle : JSVal → T) (args : Option InvokeArgs) :
    Except JSVal (T × Effects) :=
  match invoke method args with
  | Except.ok v => Except.ok (v, Effects.empty)
  | Except.error e =>
    match e.getProp "name" with
    | Except.error thrown => Except.error thrown
    | Except.ok nameV =>
      match (if nameV.truthy then e.getProp "message" else Except.ok nameV) with
      | Except.error thrown => Except.error thrown
      | Except.ok andV =>
        if andV.truthy then
          Except.ok (handle e,
            { toasts := [(andV, "error")],
              errorLogs := ["Error invoking " ++ method ++ ": (" ++ nameV.display
                ++ ") " ++ andV.display],
              exceptionLogs := [] })
        else if e.isString then
          Except.ok (handle e,
            { toasts := [(e, "error")],
              errorLogs := ["Error invoking " ++ method ++ ": " ++ e.display],
              exceptionLogs := [] })
        else
          Except.ok (handle e,
            { toasts := [],
              errorLogs := [],
              exceptionLogs := [("Error invoking " ++ method, e)] })

/-- `VersionFolders = null | "official" | "unofficial" | "devel"`. -/
inductive VersionFolders where
  | nullFolder : VersionFolders
  | official : VersionFolders
  | unofficial : VersionFolders
  | devel : VersionFolders

/-- The JavaScript value of a `VersionFolders` member. -/
def VersionFolders.toJS : VersionFolders → JSVal
  | .nullFolder => JSVal.vNull
  | .official => JSVal.vStr "official"
  | .unofficial => JSVal.vStr "unofficial"
  | .devel => JSVal.vStr "devel"

/-- `listDownloadedVersions`: backend method `list_downloaded_versions`
with `{versionFolder}`, fallback the empty array. -/
def listDownloadedVersions (invoke : Backend) (folder : VersionFolders) :
    Except JSVal (JSVal × Effects) :=
  invoke_and_log invoke "list_downloaded_versions" (fun _ => JSVal.vArr [])
    (some [("versionFolder", folder.toJS)])

/-- `downloadOfficialVersion`: backend method `download_version` with
`{version, versionFolder: "official", url}`, fallback `false`; the result
is `success !== false`. -/
def downloadOfficialVersion (invoke : Backend) (version url : String) :
    Except JSVal (Bool × Effects) :=
  match invoke_and_log invoke "download_version" (fun _ => JSVal.vBool false)
      (some [("version", JSVal.vStr version),
             ("versionFolder", JSVal.vStr "official"),
             ("url", JSVal.vStr url)]) with
  | Except.error thrown => Except.error thrown
  | Except.ok (success, eff) => Except.ok (!success.isFalse, eff)

/-- `removeVersion`: backend method `remove_version` with
`{version, versionFolder}`, fallback `false`; the result is
`success !== false`. -/
def removeVersion (invoke : Backend) (version versionFolder : String) :
    Except JSVal (Bool × Effects) :=
  match invoke_and_log invoke "remove_version" (fun _ => JSVal.vBool false)
      (some [("version", JSVal.vStr version),
             ("versionFolder", JSVal.vStr versionFolder)]) with
  | Except.error thrown => Except.error thrown
  | Except.ok (success, eff) => Except.ok (!success.isFalse, eff)

/-- `openVersionFolder`: backend method `open_version_folder` with
`{versionFolder}`, fallback `undefined`. -/
def openVersionFolder (invoke : Backend) (folder : VersionFolders) :
    Except JSVal (JSVal × Effects) :=
  invoke_and_log invoke "open_version_folder" (fun _ => JSVal.vUndefined)
    (some [("versionFolder", folder.toJS)])

/-- `getActiveVersion`: backend method `get_active_tooling_version`, no
arguments, fallback `null`. -/
def getActiveVersion (invoke : Backend) : Except JSVal (JSVal × Effects) :=
  invoke_and_log invoke "get_active_tooling_version" (fun _ => JSVal.vNull) none

/-- `getActiveVersionFolder`: backend method
`get_active_tooling_version_folder`, no arguments, fallback `null`. -/
def getActiveVersionFolder (invoke : Backend) : Except JSVal (JSVal × Effects) :=
  invoke_and_log invoke "get_active_tooling_version_folder" (fun _ => JSVal.vNull) none

/-- `ensureActiveVersionStillExists`: backend method
`ensure_active_version_still_exists`, no arguments, fallback `false`. -/
def ensureActiveVersionStillExists (invoke : Backend) : Except JSVal (JSVal × Effects) :=
  invoke_and_log invoke "ensure_active_version_still_exists" (fun _ => JSVal.vBool false) none

/-- Two sequential calls through the wrapper with identical inputs: the
second runs only if the first resolves, and the pair of results is
returned. -/
def invokeTwice {T : Type} (invoke : InvokeFn T) (method : String)
    (handle : JSVal → T) (args : Option InvokeArgs) :
    Except JSVal ((T × Effects) × (T × Effects)) :=
  (invoke_and_log invoke method handle args).bind (fun r1 =>
    (invoke_and_log invoke method handle args).map (fun r2 => (r1, r2)))

/-- Shared lemma: a resolved backend call returns the resolved value with no
effects. -/
lemma invoke_and_log_resolves {T : Type} (invoke : InvokeFn T) (method : String)
    (handle : JSVal → T) (args : Option InvokeArgs) (v : T)
    (h : invoke method args = Except.ok v) :
    invoke_and_log invoke method handle args = Except.ok (v, Effects.empty) := by
  unfold invoke_and_log
  rw [h]

/-- C3: a successful backend resolution is returned unchanged, with zero
notifications and zero log entries on either channel. -/
theorem invoke_and_log_success {T : Type} (invoke : InvokeFn T) (method : String)
    (handle : JSVal → T) (args : Option InvokeArgs) (v : T)
    (h : invoke method args = Except.ok v) :
    invoke_and_log invoke method handle args = Except.ok (v, Effects.empty) :=
  invoke_and_log_resolves invoke method handle args v h

/-- C3 witness: a concrete resolved call. -/
theorem invoke_and_log_success_witness :
    invoke_and_log (fun _ _ => (Except.ok 5 : Except JSVal Nat))
      "get_active_tooling_version" (fun _ => 0) none
      = Except.ok (5, Effects.empty) :=
  invoke_and_log_success (fun _ _ => (Except.ok 5 : Except JSVal Nat))
    "get_active_tooling_version" (fun _ => 0) none 5 rfl

/-- C1: refuted evaluation — when the backend rejects with `null`, the
wrapper itself throws a `TypeError` while reading `e.name` in its catch
block, so the call does NOT return a value of the declared result type:
the failure escapes the wrapper's boundary. -/
theorem invoke_and_log_null_rejection_throws :
    invoke_and_log (fun _ _ => (Except.error JSVal.vNull : Except JSVal Nat))
      "get_active_tooling_version" (fun _ => 0) none
      = Except.error (typeErrorVal "Cannot read properties of null (reading name)") := rfl

/-- C6: refuted evaluation — when the backend rejects with `undefined`, the
wrapper throws a `TypeError` from its own catch block: no notification and
no log entry of any kind is emitted, and no value of the declared success
type is returned. -/
theorem invoke_and_log_undefined_rejection_throws :
    invoke_and_log (fun _ _ => (Except.error JSVal.vUndefined : Except JSVal Bool))
      "ensure_active_version_still_exists" (fun _ => false) none
      = Except.error (typeErrorVal "Cannot read properties of undefined (reading name)") := rfl

/-- C2 counterexample: the failure value
`{name: "IOError", message: ""}` has both a `name` and a `message` string
field, yet the wrapper shows no notification and writes no error-log line:
because `e.message` is falsy, classification falls through to the
exception-log branch. -/
theorem invoke_and_log_empty_message_counterexample :
    invoke_and_log
      (fun _ _ => (Except.error (JSVal.vObj [("name", JSVal.vStr "IOError"),
        ("message", JSVal.vStr "")]) : Except JSVal Nat))
      "remove_version" (fun _ => 0) none
      = Except.ok (0,
          ⟨[], [],
           [("Error invoking remove_version",
             JSVal.vObj [("name", JSVal.vStr "IOError"), ("message", JSVal.vStr "")])]⟩) := rfl

/-- C2 (amended): for every failure value whose `name` and `message` fields
hold non-empty strings, exactly one error toast equal to the `message`
field is shown, exactly one error-log line
`Error invoking <method>: (<name>) <message>` is written, and the fallback
producer's result on the failure value is returned. -/
theorem invoke_and_log_structured_error {T : Type} (invoke : InvokeFn T)
    (method : String) (handle : JSVal → T) (args : Option InvokeArgs)
    (e : JSVal) (n m : String)
    (he : invoke method args = Except.error e)
    (hn : e.getProp "name" = Except.ok (JSVal.vStr n))
    (hm : e.getProp "message" = Except.ok (JSVal.vStr m))
    (hn0 : n ≠ "") (hm0 : m ≠ "") :
    invoke_and_log invoke method handle args
      = Except.ok (handle e,
          ⟨[(JSVal.vStr m, "error")],
           ["Error invoking " ++ method ++ ": (" ++ n ++ ") " ++ m], []⟩) := by
  have htn : (JSVal.vStr n).truthy = true := by simp [JSVal.truthy, hn0]
  have htm : (JSVal.vStr m).truthy = true := by simp [JSVal.truthy, hm0]
  simp only [invoke_and_log, he, hn, htn, if_true, hm, htm]
  simp [JSVal.display]

/-- C2 witness: a concrete structured failure. -/
theorem invoke_and_log_structured_error_witness :
    invoke_and_log
      (fun _ _ => (Except.error (JSVal.vObj [("name", JSVal.vStr "IOError"),
        ("message", JSVal.vStr "not found")]) : Except JSVal Nat))
      "get_active_tooling_version_folder" (fun _ => 0) none
      = Except.ok (0,
          ⟨[(JSVal.vStr "not found", "error")],
           ["Error invoking get_active_tooling_version_folder: (IOError) not found"],
           []⟩) :=
  invoke_and_log_structured_error
    (fun _ _ => (Except.error (JSVal.vObj [("name", JSVal.vStr "IOError"),
      ("message", JSVal.vStr "not found")]) : Except JSVal Nat))
    "get_active_tooling_version_folder" (fun _ => 0) none
    (JSVal.vObj [("name", JSVal.vStr "IOError"), ("message", JSVal.vStr "not found")])
    "IOError" "not found" rfl rfl rfl (by decide) (by decide)

/-- C5: a plain-string failure `s` produces exactly one error toast showing
`s` and exactly one error-log line `Error invoking <method>: <s>`, and the
fallback producer's result is returned. -/
theorem invoke_and_log_string_error {T : Type} (invoke : InvokeFn T)
    (method : String) (handle : JSVal → T) (args : Option InvokeArgs) (s : String)
    (he : invoke method args = Except.error (JSVal.vStr s)) :
    invoke_and_log invoke method handle args
      = Except.ok (handle (JSVal.vStr s),
          ⟨[(JSVal.vStr s, "error")],
           ["Error invoking " ++ method ++ ": " ++ s], []⟩) := by
  unfold invoke_and_log
  rw [he]
  rfl

/-- C5 witness: a concrete string failure. -/
theorem invoke_and_log_string_error_witness :
    invoke_and_log (fun _ _ => (Except.error (JSVal.vStr "disk full") : Except JSVal Nat))
      "download_version" (fun _ => 0) none
      = Except.ok (0,
          ⟨[(JSVal.vStr "disk full", "error")],
           ["Error invoking download_version: disk full"], []⟩) :=
  invoke_and_log_string_error
    (fun _ _ => (Except.error (JSVal.vStr "disk full") : Except JSVal Nat))
    "download_version" (fun _ => 0) none "disk full" rfl

/-- C9: a non-string object failure whose `name` or `message` value is
falsy is classified as opaque: no toast, no error-log line, exactly one
exception-log entry tagged with the method name. -/
theorem invoke_and_log_falsy_fields_opaque {T : Type} (invoke : InvokeFn T)
    (method : String) (handle : JSVal → T) (args : Option InvokeArgs)
    (fields : List (String × JSVal)) (nv mv : JSVal)
    (he : invoke method args = Except.error (JSVal.vObj fields))
    (hn : (JSVal.vObj fields).getProp "name" = Except.ok nv)
    (hm : (JSVal.vObj fields).getProp "message" = Except.ok mv)
    (hfalsy : nv.truthy = false ∨ mv.truthy = false) :
    invoke_and_log invoke method handle args
      = Except.ok (handle (JSVal.vObj fields),
          ⟨[], [], [("Error invoking " ++ method, JSVal.vObj fields)]⟩) := by
  cases hnt : nv.truthy with
  | false =>
      simp only [invoke_and_log, he, hn, hnt]
      simp [JSVal.isString, hnt]
  | true =>
      have hmf : mv.truthy = false := by
        rcases hfalsy with h | h
        · rw [h] at hnt
          exact absurd hnt (by simp)
        · exact h
      simp only [invoke_and_log, he, hn, hnt, if_true, hm, hmf]
      simp [JSVal.isString]

/-- C9 witness: an object with a truthy `name` but an empty-string
`message`. -/
theorem invoke_and_log_falsy_fields_opaque_witness :
    invoke_and_log
      (fun _ _ => (Except.error (JSVal.vObj [("name", JSVal.vStr "E"),
        ("message", JSVal.vStr "")]) : Except JSVal Nat))
      "open_version_folder" (fun _ => 7) none
      = Except.ok (7,
          ⟨[], [],
           [("Error invoking open_version_folder",
             JSVal.vObj [("name", JSVal.vStr "E"), ("message", JSVal.vStr "")])]⟩) :=
  invoke_and_log_falsy_fields_opaque
    (fun _ _ => (Except.error (JSVal.vObj [("name", JSVal.vStr "E"),
      ("message", JSVal.vStr "")]) : Except JSVal Nat))
    "open_version_folder" (fun _ => 7) none
    [("name", JSVal.vStr "E"), ("message", JSVal.vStr "")]
    (JSVal.vStr "E") (JSVal.vStr "") rfl rfl rfl (Or.inr rfl)

/-- C4: evaluations of `listDownloadedVersions` — a backend rejection with
the opaque value `42` yields the empty array, no toast, no error-log line,
and exactly one exception-log entry tagged
`Error invoking list_downloaded_versions` containing `42`; but a rejection
with `null` (which also matches neither the structured nor the string
shape) makes the wrapper throw a `TypeError`, writing no exception-log
entry, refuting the universally quantified claim. -/
theorem listDownloadedVersions_opaque_eval :
    (listDownloadedVersions (fun _ _ => Except.error (JSVal.vNum 42))
        VersionFolders.official
      = Except.ok (JSVal.vArr [],
          ⟨[], [], [("Error invoking list_downloaded_versions", JSVal.vNum 42)]⟩))
    ∧ (listDownloadedVersions (fun _ _ => Except.error JSVal.vNull)
        VersionFolders.official
      = Except.error (typeErrorVal "Cannot read properties of null (reading name)")) :=
  ⟨rfl, rfl⟩

/-- C7: evaluations of `downloadOfficialVersion` — the backend is invoked
with method `download_version` and arguments
`{version, versionFolder: "official", url}` (a backend that resolves only
for exactly that request resolves here); a non-`false` resolution yields
`true`, a `false` resolution yields `false`; but on a backend failure with
value `null` the call throws a `TypeError` instead of returning `false`,
refuting the failure clause of the claim. -/
theorem downloadOfficialVersion_eval :
    (downloadOfficialVersion
        (fun meth margs =>
          match meth, margs with
          | "download_version",
            some [("version", JSVal.vStr "v1"),
                  ("versionFolder", JSVal.vStr "official"),
                  ("url", JSVal.vStr "u1")] => Except.ok (JSVal.vStr "ok")
          | _, _ => Except.error (JSVal.vStr "unexpected request"))
        "v1" "u1"
      = Except.ok (true, Effects.empty))
    ∧ (downloadOfficialVersion (fun _ _ => Except.ok (JSVal.vBool false)) "v1" "u1"
      = Except.ok (false, Effects.empty))
    ∧ (downloadOfficialVersion (fun _ _ => Except.error JSVal.vNull) "v1" "u1"
      = Except.error (typeErrorVal "Cannot read properties of null (reading name)")) :=
  ⟨rfl, rfl, rfl⟩

/-- C8: against a backend that deterministically resolves with `v`, two
sequential invocations of the wrapper with identical inputs produce two
independent identical successes `(v, no effects)`: the wrapper keeps no
cache or state between calls. -/
theorem invokeTwice_identical_successes {T : Type} (invoke : InvokeFn T)
    (method : String) (handle : JSVal → T) (args : Option InvokeArgs) (v : T)
    (h : invoke method args = Except.ok v) :
    invokeTwice invoke method handle args
      = Except.ok ((v, Effects.empty), (v, Effects.empty)) := by
  unfold invokeTwice
  rw [invoke_and_log_resolves invoke method handle args v h]
  rfl

/-- C8 witness: a concrete deterministic backend. -/
theorem invokeTwice_identical_successes_witness :
    invokeTwice (fun _ _ => Except.ok (JSVal.vStr "v2"))
      "get_active_tooling_version" (fun _ => JSVal.vNull) none
      = Except.ok ((JSVal.vStr "v2", Effects.empty), (JSVal.vStr "v2", Effects.empty)) :=
  invokeTwice_identical_successes (fun _ _ => Except.ok (JSVal.vStr "v2"))
    "get_active_tooling_version" (fun _ => JSVal.vNull) none (JSVal.vStr "v2") rfl

/-- C10: evaluations of all seven exposed operations — on an opaque backend
failure (`7`) each returns its constant fallback (`[]`, `false`, `false`,
`undefined`, `null`, `null`, `false` respectively); but on a backend
failure with value `null` every one of them throws a `TypeError` instead
of returning its fallback, refuting the universally quantified claim. -/
theorem call_sites_fallback_eval :
    (listDownloadedVersions (fun _ _ => Except.error (JSVal.vNum 7)) VersionFolders.devel
      = Except.ok (JSVal.vArr [],
          ⟨[], [], [("Error invoking list_downloaded_versions", JSVal.vNum 7)]⟩))
    ∧ (downloadOfficialVersion (fun _ _ => Except.error (JSVal.vNum 7)) "v" "u"
      = Except.ok (false,
          ⟨[], [], [("Error invoking download_version", JSVal.vNum 7)]⟩))
    ∧ (removeVersion (fun _ _ => Except.error (JSVal.vNum 7)) "v" "official"
      = Except.ok (false,
          ⟨[], [], [("Error invoking remove_version", JSVal.vNum 7)]⟩))
    ∧ (openVersionFolder (fun _ _ => Except.error (JSVal.vNum 7)) VersionFolders.official
      = Except.ok (JSVal.vUndefined,
          ⟨[], [], [("Error invoking open_version_folder", JSVal.vNum 7)]⟩))
    ∧ (getActiveVersion (fun _ _ => Except.error (JSVal.vNum 7))
      = Except.ok (JSVal.vNull,
          ⟨[], [], [("Error invoking get_active_tooling_version", JSVal.vNum 7)]⟩))
    ∧ (getActiveVersionFolder (fun _ _ => Except.error (JSVal.vNum 7))
      = Except.ok (JSVal.vNull,
          ⟨[], [], [("Error invoking get_active_tooling_version_folder", JSVal.vNum 7)]⟩))
    ∧ (ensureActiveVersionStillExists (fun _ _ => Except.error (JSVal.vNum 7))
      = Except.ok (JSVal.vBool false,
          ⟨[], [], [("Error invoking ensure_active_version_still_exists", JSVal.vNum 7)]⟩))
    ∧ (listDownloadedVersions (fun _ _ => Except.error JSVal.vNull) VersionFolders.devel
      = Except.error (typeErrorVal "Cannot read properties of null (reading name)"))
    ∧ (downloadOfficialVersion (fun _ _ => Except.error JSVal.vNull) "v" "u"
      = Except.error (typeErrorVal "Cannot read properties of null (reading name)"))
    ∧ (removeVersion (fun _ _ => Except.error JSVal.vNull) "v" "official"
      = Except.error (typeErrorVal "Cannot read properties of null (reading name)"))
    ∧ (openVersionFolder (fun _ _ => Except.error JSVal.vNull) VersionFolders.official
      = Except.error (typeErrorVal "Cannot read properties of null (reading name)"))
    ∧ (getActiveVersion (fun _ _ => Except.error JSVal.vNull)
      = Except.error (typeErrorVal "Cannot read properties of null (reading name)"))
    ∧ (getActiveVersionFolder (fun _ _ => Except.error JSVal.vNull)
      = Except.error (typeErrorVal "Cannot read properties of null (reading name)"))
    ∧ (ensureActiveVersionStillExists (fun _ _ => Except.error JSVal.vNull)
      = Except.error (typeErrorVal "Cannot read properties of null (reading name)")) :=
  ⟨rfl, rfl, rfl, rfl, rfl, rfl, rfl, rfl, rfl, rfl, rfl, rfl, rfl, rfl⟩
